import Mathlib

/-!
Verification of the Auth microservice core (key store, token authority,
rotation, JWKS publishing, OAuth callback control flow, coordinator
dispatch) against its natural-language specification.

The JavaScript source is shallowly embedded: JS objects keyed by strings
become association lists in insertion order (`keys[k] = v` updates in
place or appends; `delete keys[k]` removes; `Object.keys` maps `fst`),
`process.env` becomes an explicit `Config` record of `Option` fields,
thrown exceptions become `Except`, and the node `crypto` / `jsonwebtoken`
libraries are modelled abstractly: RSA key material is an inductive whose
valid private and public halves correspond through a numeric identifier,
signing records that identifier, and verification compares it, then
checks expiry, audience and issuer as `jsonwebtoken` does.
-/

/-- Abstract key material handed to node crypto. `rsaPriv n` / `rsaPub n`
are a matching structurally valid RSA pair; `malformed s` is material the
crypto library rejects (with `s` the raw text, so JS string truthiness of
material is representable). -/
inductive KeyMaterial where
  | rsaPriv (n : Nat)
  | rsaPub (n : Nat)
  | malformed (s : String)
deriving DecidableEq, Repr

/-- JS truthiness of the underlying key string: only the empty string is
falsy; any structurally valid PEM is nonempty. -/
def KeyMaterial.truthy : KeyMaterial → Bool
  | .malformed s => s ≠ ""
  | _ => true

/-- Model of `crypto.createPrivateKey`: succeeds exactly on valid private key
material. -/
def createPrivateKey : KeyMaterial → Option Unit
  | .rsaPriv _ => some ()
  | _ => none

/-- Model of `crypto.createPublicKey` with its `jwk` export: succeeds on valid
public material (and on private material, from which node derives the
public half), yielding the abstract modulus and exponent. -/
def createPublicKey : KeyMaterial → Option (Nat × Nat)
  | .rsaPub n => some (n, 65537)
  | .rsaPriv n => some (n, 65537)
  | .malformed _ => none

/-- One stored key pair (`keyManager.js` key-store entry). -/
structure KeyPair where
  privateKey : KeyMaterial
  publicKey : KeyMaterial
deriving DecidableEq, Repr

/-- The key store of `keyManager.js`: designated active kid plus a JS
object mapping kid to key pair, kept in insertion order. -/
structure KeyStore where
  activeKid : Option String
  keys : List (String × KeyPair)
deriving DecidableEq, Repr

/-- JS object property write `keys[kid] = v`: update in place when the
kid exists, else append. -/
def objSet : List (String × KeyPair) → String → KeyPair → List (String × KeyPair)
  | [], k, v => [(k, v)]
  | (k', v') :: rest, k, v =>
      if k' = k then (k, v) :: rest else (k', v') :: objSet rest k v

/-- Source `getActivePrivateKey` from `keyManager.js`: null unless the active
kid is set (truthy) and names an entry. -/
def getActivePrivateKey (ks : KeyStore) : Option KeyMaterial :=
  match ks.activeKid with
  | none => none
  | some kid =>
      if kid = "" then none
      else match ks.keys.lookup kid with
        | none => none
        | some kp => some kp.privateKey

/-- Source `getActiveKid` from `keyManager.js`. -/
def getActiveKid (ks : KeyStore) : Option String :=
  ks.activeKid

/-- Source `getPublicKey(kid)` from `keyManager.js`: null for a falsy kid or a
kid with no entry. -/
def getPublicKey (ks : KeyStore) (kid : String) : Option KeyMaterial :=
  if kid = "" then none
  else match ks.keys.lookup kid with
    | none => none
    | some kp => some kp.publicKey

/-- Source `getAllPublicKeys` from `keyManager.js`: kid-to-public-key mapping in
store order. -/
def getAllPublicKeys (ks : KeyStore) : List (String × KeyMaterial) :=
  ks.keys.map (fun p => (p.1, p.2.publicKey))

/-- Source `getAllKids` from `keyManager.js`. -/
def getAllKids (ks : KeyStore) : List String :=
  ks.keys.map Prod.fst

/-- Source `addKey` from `keyManager.js`: throws when kid or either key string
is falsy; otherwise inserts or overwrites, optionally making the key
active. -/
def addKey (ks : KeyStore) (kid : String) (privateKey publicKey : KeyMaterial)
    (setAsActive : Bool) : Except String KeyStore :=
  if kid = "" ∨ ¬ privateKey.truthy ∨ ¬ publicKey.truthy then
    .error "kid, privateKey, and publicKey are required"
  else
    .ok { activeKid := if setAsActive then some kid else ks.activeKid,
          keys := objSet ks.keys kid ⟨privateKey, publicKey⟩ }

/-- Source `removeKey` from `keyManager.js`: silently keeps the store unchanged
for a falsy or absent kid and for the active kid; otherwise deletes the
entry. -/
def removeKey (ks : KeyStore) (kid : String) : KeyStore :=
  if kid = "" ∨ (ks.keys.lookup kid).isNone then ks
  else if ks.activeKid = some kid then ks
  else { ks with keys := ks.keys.filter (fun p => p.1 ≠ kid) }

/-- Source `setActiveKid` from `keyManager.js`: throws for an unknown kid. -/
def setActiveKid (ks : KeyStore) (kid : String) : Except String KeyStore :=
  match ks.keys.lookup kid with
  | none => .error ("Key not found: " ++ kid)
  | some _ => .ok { ks with activeKid := some kid }

/-- Observability projection `getKeyStoreState` from `keyManager.js`. -/
structure KeyStoreState where
  activeKid : Option String
  availableKids : List String
  keyCount : Nat
deriving DecidableEq, Repr

/-- Source `getKeyStoreState` from `keyManager.js`. -/
def getKeyStoreState (ks : KeyStore) : KeyStoreState :=
  { activeKid := ks.activeKid,
    availableKids := ks.keys.map Prod.fst,
    keyCount := (ks.keys.map Prod.fst).length }

/-- Active-kid resolution at the end of `keyManager.initialize`
(lines 133-145): the configured `JWT_ACTIVE_KID` when truthy and loaded,
else `Object.keys(keys).sort().reverse()[0]` when any key loaded, else
null. -/
def autoSelectKid (keys : List (String × KeyPair)) : Option String :=
  if 0 < keys.length then
    ((keys.map Prod.fst).insertionSort (fun a b => a ≤ b)).reverse.head?
  else none

/-- The `JWT_ACTIVE_KID` branch of `keyManager.initialize`. -/
def resolveActiveKid (activeKidFromEnv : Option String)
    (keys : List (String × KeyPair)) : Option String :=
  match activeKidFromEnv with
  | some k =>
      if k ≠ "" ∧ (keys.lookup k).isSome then some k
      else autoSelectKid keys
  | none => autoSelectKid keys

/-- JWT payload as built by `jwtService.generateToken`. -/
structure Payload where
  sub : String
  email : String
  organization_id : String
  roles : List String
  iat : Nat
  exp : Nat
  iss : String
  aud : String
deriving DecidableEq, Repr

/-- JWT header: algorithm plus optional embedded key id. -/
structure TokenHeader where
  alg : String
  kid : Option String
deriving DecidableEq, Repr

/-- A signed JWT, with the RSA signature abstracted to the numeric
identifier of the signing private key. -/
structure Token where
  header : TokenHeader
  payload : Payload
  sig : Nat
deriving DecidableEq, Repr

/-- Typed outcomes of `jsonwebtoken`'s verify: `tokenExpired` is
TokenExpiredError, `keyUnusable` is a raw crypto error on unusable key
material, the rest are JsonWebTokenError variants. -/
inductive JwtError where
  | invalidAlgorithm
  | invalidSignature
  | tokenExpired
  | audienceMismatch
  | issuerMismatch
  | keyUnusable
deriving DecidableEq, Repr

/-- Model of `jwt.sign(payload, privateKey, opts)` with RS256 and keyid:
succeeds on valid private material, recording its identifier as the
signature. -/
def jwtSign (payload : Payload) (privateKey : KeyMaterial) (keyid : String) :
    Except String Token :=
  match privateKey with
  | .rsaPriv n => .ok { header := { alg := "RS256", kid := some keyid },
                        payload := payload, sig := n }
  | _ => .error "secretOrPrivateKey must be an asymmetric key when using RS256"

/-- Model of `jwt.verify(token, key, opts)` with RS256 pinned, issuer and audience
at clock time `now`: algorithm pin, signature, expiry, audience, issuer,
in `jsonwebtoken`'s order. -/
def jwtVerify (tok : Token) (key : KeyMaterial) (issuer audience : String)
    (now : Nat) : Except JwtError Payload :=
  match key with
  | .rsaPub m =>
      if tok.header.alg ≠ "RS256" then .error .invalidAlgorithm
      else if tok.sig ≠ m then .error .invalidSignature
      else if tok.payload.exp ≤ now then .error .tokenExpired
      else if tok.payload.aud ≠ audience then .error .audienceMismatch
      else if tok.payload.iss ≠ issuer then .error .issuerMismatch
      else .ok tok.payload
  | _ => .error .keyUnusable

/-- The configuration surface read from `process.env` by the token and
rotation services; `none` is an unset variable. -/
structure Config where
  jwtExpiryMinutes : Option Nat
  jwtIssuer : Option String
  jwtAudience : Option String
  jwtPrivateKeyNew : Option KeyMaterial
  jwtPublicKeyNew : Option KeyMaterial
  jwtNewKid : Option String
deriving Repr

/-- JS `process.env.X || dflt` on a string variable: the default applies
when the variable is unset or empty. -/
def strOrDefault (v : Option String) (dflt : String) : String :=
  match v with
  | some s => if s = "" then dflt else s
  | none => dflt

/-- Effective issuer, `process.env.JWT_ISSUER || auth-microservice`. -/
def cfgIssuer (cfg : Config) : String :=
  strOrDefault cfg.jwtIssuer "auth-microservice"

/-- Effective audience, `process.env.JWT_AUDIENCE || educore-ai`. -/
def cfgAudience (cfg : Config) : String :=
  strOrDefault cfg.jwtAudience "educore-ai"

/-- The claims record supplied to `jwtService.generateToken` by the
callback handler. -/
structure Claims where
  sub : String
  email : String
  organization_id : String
  roles : List String
deriving DecidableEq, Repr

/-- Source `jwtService.generateToken`: resolves the active private key and kid
(failing when either is unavailable), then signs the claims plus
`iat = now`, `exp = now + JWT_EXPIRY_MINUTES * 60` (default 15 minutes),
issuer and audience, embedding the active kid in the header. -/
def generateToken (cfg : Config) (ks : KeyStore) (now : Nat) (claims : Claims) :
    Except String Token :=
  match getActivePrivateKey ks with
  | none => .error "JWT private key not configured"
  | some privateKey =>
      if ¬ privateKey.truthy then .error "JWT private key not configured"
      else
        match getActiveKid ks with
        | none => .error "JWT active key ID not configured"
        | some activeKid =>
            if activeKid = "" then .error "JWT active key ID not configured"
            else
              let expiryMinutes := cfg.jwtExpiryMinutes.getD 15
              let payload : Payload :=
                { sub := claims.sub
                  email := claims.email
                  organization_id := claims.organization_id
                  roles := claims.roles
                  iat := now
                  exp := now + expiryMinutes * 60
                  iss := cfgIssuer cfg
                  aud := cfgAudience cfg }
              jwtSign payload privateKey activeKid

/-- The user record the validation middleware attaches to the request. -/
structure UserInfo where
  user_id : String
  email : String
  organization_id : String
  roles : List String
deriving DecidableEq, Repr

/-- Outcome of the `validateJWT` middleware: either the attached user or
an HTTP error response. -/
inductive ValidateResult where
  | success (user : UserInfo)
  | failure (status : Nat) (msg : String)
deriving DecidableEq, Repr

/-- The catch clause of `validateJWT`: TokenExpiredError and
JsonWebTokenError map to dedicated 401 bodies, anything else to the
generic 401. -/
def respOfJwtError (e : JwtError) : ValidateResult :=
  match e with
  | .tokenExpired => .failure 401 "Token expired"
  | .keyUnusable => .failure 401 "Authentication failed"
  | _ => .failure 401 "Invalid token"

/-- The `req.user` construction in `validateJWT` from a decoded payload. -/
def userOfPayload (p : Payload) : UserInfo :=
  { user_id := p.sub, email := p.email,
    organization_id := p.organization_id, roles := p.roles }

/-- The backward-compatibility loop of `validateJWT`: try each public
key in store order, return on first success, remember the last error;
when the list is exhausted rethrow the last error (or the generic
all-keys-failed error when none was recorded). -/
def tryAllKeys (tok : Token) (issuer audience : String) (now : Nat) :
    List (String × KeyMaterial) → Option JwtError → ValidateResult
  | [], some e => respOfJwtError e
  | [], none => .failure 401 "Authentication failed"
  | (_, key) :: rest, _ =>
      match jwtVerify tok key issuer audience now with
      | .ok decoded => .success (userOfPayload decoded)
      | .error e => tryAllKeys tok issuer audience now rest (some e)

/-- The `validateJWT` middleware of `middlewares/validateJWT.js`: 401
without a token; with a token, a truthy header kid that resolves in the
store pins verification to that single key; otherwise every known key is
tried in order, an empty key set being a 500 misconfiguration. -/
def validateJWT (cfg : Config) (ks : KeyStore) (now : Nat)
    (cookieToken : Option Token) : ValidateResult :=
  match cookieToken with
  | none => .failure 401 "No authentication token provided"
  | some tok =>
      let tokenKid := tok.header.kid
      let pinned :=
        match tokenKid with
        | some kid => getPublicKey ks kid
        | none => none
      match pinned with
      | some publicKey =>
          match jwtVerify tok publicKey (cfgIssuer cfg) (cfgAudience cfg) now with
          | .ok decoded => .success (userOfPayload decoded)
          | .error e => respOfJwtError e
      | none =>
          let allPublicKeys := getAllPublicKeys ks
          if (allPublicKeys.map Prod.fst).length = 0 then
            .failure 500 "Authentication service misconfigured"
          else
            tryAllKeys tok (cfgIssuer cfg) (cfgAudience cfg) now allPublicKeys none

/-- One JWKS entry as pushed by `jwksController.generateJWKS`. -/
structure JwksKey where
  kty : String
  use : String
  kid : String
  alg : String
  n : Nat
  e : Nat
deriving DecidableEq, Repr

/-- Source `jwksController.generateJWKS`: one entry per stored key whose public
half is truthy and converts to JWK; keys failing conversion are skipped,
an empty store yields an empty key list. -/
def generateJWKS (ks : KeyStore) : List JwksKey :=
  ks.keys.filterMap (fun p =>
    if ¬ p.2.publicKey.truthy then none
    else
      match createPublicKey p.2.publicKey with
      | some (n, e) =>
          some { kty := "RSA", use := "sig", kid := p.1, alg := "RS256",
                 n := n, e := e }
      | none => none)

/-- Mutable module state of key manager plus JWKS controller cache. -/
structure ServiceState where
  ks : KeyStore
  jwksCache : List JwksKey
deriving DecidableEq, Repr

/-- Source `jwksController.refreshJWKS`: regenerate the cache from the store. -/
def refreshJWKS (st : ServiceState) : ServiceState :=
  { st with jwksCache := generateJWKS st.ks }

/-- The record returned by a successful `rotateToNewKey`. -/
structure RotationResult where
  oldActiveKid : Option String
  newActiveKid : String
  totalKeys : Nat
deriving DecidableEq, Repr

/-- Effective new kid in `rotateToNewKey`:
`process.env.JWT_NEW_KID || auth-key-<current month>`. -/
def effectiveNewKid (cfg : Config) (month : String) : String :=
  strOrDefault cfg.jwtNewKid ("auth-key-" ++ month)

/-- Source `keyRotationService.rotateToNewKey`: reads the new pair from the
environment, fails fast when either is missing or fails crypto parsing,
then adds the key, promotes it to active, and refreshes the JWKS cache.
The state component of the result is the (possibly mutated) module
state; every validation failure happens before any mutation. -/
def rotateToNewKey (cfg : Config) (month : String) (st : ServiceState) :
    ServiceState × Except String RotationResult :=
  let newKid := effectiveNewKid cfg month
  match cfg.jwtPrivateKeyNew, cfg.jwtPublicKeyNew with
  | some newPrivateKey, some newPublicKey =>
      if ¬ newPrivateKey.truthy ∨ ¬ newPublicKey.truthy then
        (st, .error "JWT_PRIVATE_KEY_NEW and JWT_PUBLIC_KEY_NEW must be set for key rotation")
      else if (createPrivateKey newPrivateKey).isNone ∨
              (createPublicKey newPublicKey).isNone then
        (st, .error "Invalid key format")
      else
        let oldActiveKid := getActiveKid st.ks
        match addKey st.ks newKid newPrivateKey newPublicKey false with
        | .error e => (st, .error e)
        | .ok ks1 =>
            match setActiveKid ks1 newKid with
            | .error e => ({ st with ks := ks1 }, .error e)
            | .ok ks2 =>
                let st' := refreshJWKS { st with ks := ks2 }
                (st', .ok { oldActiveKid := oldActiveKid,
                            newActiveKid := newKid,
                            totalKeys := (getKeyStoreState ks2).keyCount })
  | _, _ =>
      (st, .error "JWT_PRIVATE_KEY_NEW and JWT_PUBLIC_KEY_NEW must be set for key rotation")

/-- The record returned by `purgeExpiredKeys` (the `minAgeMinutes`
argument is accepted but unused by the source: the store tracks no key
age). -/
structure PurgeResult where
  purged : List String
  activeKid : Option String
  remainingKeys : List String
deriving DecidableEq, Repr

/-- Source `keyRotationService.purgeExpiredKeys`: with an explicit kid list,
every requested kid except the active one is removed (the active kid is
skipped with a warning); with no list, every non-active kid is removed;
the JWKS cache is refreshed when anything was removed. -/
def purgeExpiredKeys (st : ServiceState) (kidsToPurge : Option (List String)) :
    ServiceState × PurgeResult :=
  let activeKid := getActiveKid st.ks
  let allKids := getAllKids st.ks
  let keysToRemove :=
    match kidsToPurge with
    | some l => l.filter (fun kid => activeKid ≠ some kid)
    | none => allKids.filter (fun kid => activeKid ≠ some kid)
  if keysToRemove.length = 0 then
    (st, { purged := [], activeKid := activeKid, remainingKeys := allKids })
  else
    let ks' := keysToRemove.foldl removeKey st.ks
    let st' := refreshJWKS { st with ks := ks' }
    (st', { purged := keysToRemove, activeKid := activeKid,
            remainingKeys := getAllKids ks' })

/-- The caller-supplied response template of a Coordinator request: each
field is `none` when absent from the incoming JSON object and `some v`
when present (possibly null-valued) with current content `v`. -/
structure CoordResponse where
  jwks : Option (List JwksKey)
  keys : Option (List JwksKey)
  message : Option String
  status : Option String
  error : Option String
deriving DecidableEq, Repr

/-- Source `coordinatorController.handleGetJwks`: on success writes the JWKS
into the `jwks` and `keys` fields when they pre-exist; when the try
block throws (`exc`), writes the `error` field when it pre-exists. -/
def handleGetJwks (ks : KeyStore) (exc : Bool) (resp : CoordResponse) :
    CoordResponse :=
  if exc then
    { resp with error := resp.error.map (fun _ => "Failed to retrieve JWKS") }
  else
    let jwks := generateJWKS ks
    { resp with jwks := resp.jwks.map (fun _ => jwks),
                keys := resp.keys.map (fun _ => jwks) }

/-- Source `coordinatorController.handlePerformLogout`: updates the audit
record and fires the frontend notification (both non-blocking); writes
`message` and `status` when they pre-exist, plus `error` on the catch
path (`exc`). -/
def handlePerformLogout (exc : Bool) (resp : CoordResponse) : CoordResponse :=
  if exc then
    { resp with message := resp.message.map (fun _ => "Logout completed successfully"),
                status := resp.status.map (fun _ => "success"),
                error := resp.error.map (fun _ => "Failed to perform logout") }
  else
    { resp with message := resp.message.map (fun _ => "Logout completed successfully"),
                status := resp.status.map (fun _ => "success") }

/-- Source `coordinatorController.handleCoordinatorRequest` after body parsing:
dispatches `payload.action` through the handler table, writing `error`
(only when pre-existing) for a missing or unknown action, and returns
the HTTP status with the final response object. -/
def handleCoordinatorRequest (ks : KeyStore) (action : Option String)
    (exc : Bool) (resp : CoordResponse) : Nat × CoordResponse :=
  match action with
  | none => (400, { resp with error := resp.error.map (fun _ => "No action specified") })
  | some a =>
      if a = "" then
        (400, { resp with error := resp.error.map (fun _ => "No action specified") })
      else if a = "get-jwks" then
        (200, handleGetJwks ks exc resp)
      else if a = "perform-logout" then
        (200, handlePerformLogout exc resp)
      else
        (400, { resp with error := resp.error.map (fun _ => "Unknown action: " ++ a) })

/-- External conditions of `auditService.updateLogoutTimestamp`: whether
MongoDB is connected, whether a login record exists for the user, and
whether the database operations throw. -/
structure AuditEnv where
  dbConnected : Bool
  recordFound : Bool
  dbThrows : Bool
deriving DecidableEq, Repr

/-- Source `auditService.updateLogoutTimestamp` (best-effort): every internal
condition — no connection, missing user id, no login record, database
error — is logged and swallowed; the function never throws. -/
def updateLogoutTimestamp (env : AuditEnv) (user_id : Option String) :
    Except String Unit :=
  if ¬ env.dbConnected then .ok ()
  else match user_id with
    | none => .ok ()
    | some _ =>
        if ¬ env.recordFound then .ok ()
        else if env.dbThrows then .ok ()
        else .ok ()

/-- HTTP outcome of the logout endpoint. -/
structure LogoutResponse where
  clearedCookie : Bool
  httpStatus : Nat
  body : String
deriving DecidableEq, Repr

/-- Source `authController.logout`: decode the access-token cookie (failures
tolerated), always clear the cookie, best-effort update the audit
record, and answer 200; the catch clause (reachable only if the audit
call rethrows) answers 500. -/
def logout (env : AuditEnv) (cookieToken : Option Token) : LogoutResponse :=
  let userInfo := cookieToken.map (fun t => userOfPayload t.payload)
  let auditOutcome :=
    match userInfo with
    | some u => updateLogoutTimestamp env (some u.user_id)
    | none => .ok ()
  match auditOutcome with
  | .ok _ => { clearedCookie := true, httpStatus := 200,
               body := "Logged out successfully" }
  | .error _ => { clearedCookie := true, httpStatus := 500,
                  body := "Logout failed" }

/-- JS truthiness of an optional query or cookie string. -/
def truthyOptStr : Option String → Bool
  | some s => s ≠ ""
  | none => false

/-- Outcome of the provider token-exchange plus identity fetch in
`handleCallback`: an exception, a token response without an access
token (checked explicitly for GitHub and LinkedIn), or a fetched
identity with the email the provider reported (none when absent). -/
inductive ExchangeOutcome where
  | throws
  | noAccessToken
  | identity (email : Option String)
deriving DecidableEq, Repr

/-- The user record of a Directory lookup response. -/
structure DirUser where
  user_id : String
  organization_id : String
  roles : List String
deriving DecidableEq, Repr

/-- Outcome of `coordinatorService.getUserByEmail`: an exception, or a
response that may carry no user. -/
inductive DirectoryOutcome where
  | throws
  | result (user : Option DirUser)
deriving DecidableEq, Repr

/-- The external world of one callback request: whether the Google
OpenID client initialized, the provider exchange outcome, and the
Directory outcome. -/
structure CallbackEnv where
  googleClientConfigured : Bool
  exchange : ExchangeOutcome
  directory : DirectoryOutcome
deriving DecidableEq, Repr

/-- What the callback HTTP response is: a redirect or a JSON error. -/
inductive RespKind where
  | redirect (url : String)
  | json (status : Nat) (msg : String)
deriving DecidableEq, Repr

/-- Observable effect of one `handleCallback` run: the response, whether
the transient `oauth_<provider>_state` and
`oauth_<provider>_code_verifier` cookies were cleared, and the issued
session token if any. URI-encoding of redirect messages is abstracted
to the identity. -/
structure CallbackResponse where
  kind : RespKind
  clearedState : Bool
  clearedVerifier : Bool
  accessToken : Option Token
deriving DecidableEq, Repr

/-- The catch clause of `handleCallback`: clears both OAuth cookies and
answers 500. -/
def callbackCatchResponse : CallbackResponse :=
  { kind := .json 500 "Authentication failed",
    clearedState := true, clearedVerifier := true, accessToken := none }

/-- Steps 4-10 of `handleCallback` once an identity fetch completed:
missing email, Directory lookup (miss redirects with the provisioning
error), token issuance, session cookie, OAuth-cookie clearing (the
code-verifier cookie only for non-GitHub, non-LinkedIn providers),
audit logging (best-effort, `logLogin` swallows its errors), redirect. -/
def callbackIdentityStage (cfg : Config) (ks : KeyStore) (now : Nat)
    (frontendUrl provider : String) (email : Option String)
    (dir : DirectoryOutcome) : CallbackResponse :=
  if ¬ truthyOptStr email then
    { kind := .json 400 "Email not provided by OAuth provider",
      clearedState := true, clearedVerifier := true, accessToken := none }
  else
    match dir with
    | .throws => callbackCatchResponse
    | .result user =>
        match user with
        | none =>
            { kind := .redirect
                (frontendUrl ++ "/?error=" ++ "Account not provisioned — contact administrator"),
              clearedState := true, clearedVerifier := true, accessToken := none }
        | some u =>
            if u.user_id = "" then
              { kind := .redirect
                  (frontendUrl ++ "/?error=" ++ "Account not provisioned — contact administrator"),
                clearedState := true, clearedVerifier := true, accessToken := none }
            else
              match generateToken cfg ks now
                  { sub := u.user_id, email := email.getD "",
                    organization_id := u.organization_id, roles := u.roles } with
              | .error _ => callbackCatchResponse
              | .ok tok =>
                  { kind := .redirect (frontendUrl ++ "/auth/success"),
                    clearedState := true,
                    clearedVerifier := decide (provider ≠ "github" ∧ provider ≠ "linkedin"),
                    accessToken := some tok }

/-- Source `authController.handleCallback` (lines 293-931): provider-reported
error and missing-parameter gates, state-cookie verification, the
per-provider exchange (GitHub/LinkedIn check the access token
explicitly; Google requires a configured client and its exchange
failures throw), then the identity stage. Thrown exceptions land in the
catch clause. -/
def handleCallback (cfg : Config) (ks : KeyStore) (now : Nat)
    (frontendUrl provider : String) (code state oauthError : Option String)
    (storedState : Option String) (env : CallbackEnv) : CallbackResponse :=
  if truthyOptStr oauthError then
    { kind := .redirect
        (frontendUrl ++ "/?error=" ++ ("OAuth error: " ++ oauthError.getD "")),
      clearedState := false, clearedVerifier := false, accessToken := none }
  else if ¬ truthyOptStr code ∨ ¬ truthyOptStr state then
    { kind := .json 400 "Missing OAuth parameters",
      clearedState := false, clearedVerifier := false, accessToken := none }
  else if ¬ truthyOptStr storedState then
    { kind := .json 400 "State cookie not found. Please try logging in again.",
      clearedState := true, clearedVerifier := true, accessToken := none }
  else if state ≠ storedState then
    { kind := .json 400 "Invalid state parameter",
      clearedState := true, clearedVerifier := true, accessToken := none }
  else if provider = "github" ∨ provider = "linkedin" then
    match env.exchange with
    | .throws => callbackCatchResponse
    | .noAccessToken =>
        { kind := .json 400
            ("Failed to obtain access token from " ++
              (if provider = "github" then "GitHub" else "LinkedIn")),
          clearedState := true, clearedVerifier := true, accessToken := none }
    | .identity email =>
        callbackIdentityStage cfg ks now frontendUrl provider email env.directory
  else
    if ¬ env.googleClientConfigured then
      { kind := .json 500 "OAuth provider not configured",
        clearedState := false, clearedVerifier := false, accessToken := none }
    else
      match env.exchange with
      | .throws => callbackCatchResponse
      | .noAccessToken => callbackCatchResponse
      | .identity email =>
          callbackIdentityStage cfg ks now frontendUrl provider email env.directory

/-! ### Association-list helper lemmas -/

lemma lookup_cons_self {β : Type} (rest : List (String × β)) (k : String) (v : β) :
    ((k, v) :: rest).lookup k = some v := by
  simp [List.lookup]

lemma lookup_cons_ne {β : Type} (rest : List (String × β)) (k k' : String) (v : β)
    (h : k ≠ k') : ((k', v) :: rest).lookup k = rest.lookup k := by
  simp [List.lookup, beq_eq_false_iff_ne.mpr h]

lemma lookup_eq_none_iff {β : Type} (l : List (String × β)) (k : String) :
    l.lookup k = none ↔ k ∉ l.map Prod.fst := by
  induction l with
  | nil => simp
  | cons p rest ih =>
      obtain ⟨k', v⟩ := p
      by_cases h : k = k'
      · subst h
        rw [lookup_cons_self]
        simp
      · rw [lookup_cons_ne _ _ _ _ h, ih]
        simp [h]

lemma lookup_some_mem {β : Type} {l : List (String × β)} {k : String} {v : β}
    (h : l.lookup k = some v) : (k, v) ∈ l := by
  induction l with
  | nil => simp [List.lookup] at h
  | cons p rest ih =>
      obtain ⟨k', v'⟩ := p
      by_cases hk : k = k'
      · subst hk
        rw [lookup_cons_self] at h
        simp [← Option.some_inj.mp h]
      · rw [lookup_cons_ne _ _ _ _ hk] at h
        exact List.mem_cons_of_mem _ (ih h)

lemma lookup_filter_ne {β : Type} (l : List (String × β)) (a k : String)
    (h : a ≠ k) : (l.filter (fun p => p.1 ≠ k)).lookup a = l.lookup a := by
  induction l with
  | nil => simp
  | cons p rest ih =>
      obtain ⟨k', v⟩ := p
      by_cases hk : k' = k
      · subst hk
        rw [List.filter_cons_of_neg (by simp)]
        rw [lookup_cons_ne _ _ _ _ h, ih]
      · rw [List.filter_cons_of_pos (by simp [hk])]
        by_cases ha : a = k'
        · subst ha
          rw [lookup_cons_self, lookup_cons_self]
        · rw [lookup_cons_ne _ _ _ _ ha, lookup_cons_ne _ _ _ _ ha, ih]

lemma lookup_objSet_self (l : List (String × KeyPair)) (k : String) (v : KeyPair) :
    (objSet l k v).lookup k = some v := by
  induction l with
  | nil => rw [objSet, lookup_cons_self]
  | cons p rest ih =>
      obtain ⟨k', v'⟩ := p
      by_cases h : k' = k
      · rw [objSet, if_pos h, lookup_cons_self]
      · rw [objSet, if_neg h, lookup_cons_ne _ _ _ _ (fun hh => h hh.symm), ih]

lemma lookup_objSet_ne (l : List (String × KeyPair)) (k a : String) (v : KeyPair)
    (h : a ≠ k) : (objSet l k v).lookup a = l.lookup a := by
  induction l with
  | nil => rw [objSet, lookup_cons_ne _ _ _ _ h]
  | cons p rest ih =>
      obtain ⟨k', v'⟩ := p
      by_cases hk : k' = k
      · subst hk
        rw [objSet, if_pos rfl, lookup_cons_ne _ _ _ _ h, lookup_cons_ne _ _ _ _ h]
      · by_cases ha : a = k'
        · subst ha
          rw [objSet, if_neg hk, lookup_cons_self, lookup_cons_self]
        · rw [objSet, if_neg hk, lookup_cons_ne _ _ _ _ ha, lookup_cons_ne _ _ _ _ ha, ih]

lemma mem_of_lookup_isSome {β : Type} {l : List (String × β)} {k : String}
    (h : (l.lookup k).isSome) : k ∈ l.map Prod.fst := by
  by_contra hmem
  rw [← lookup_eq_none_iff] at hmem
  rw [hmem] at h
  simp at h

/-- C7: with zero loaded keys, or an unresolvable active key, `issue`
(`generateToken`) fails with the typed unavailable error and never
returns a token. -/
theorem generateToken_unavailable (cfg : Config) (ks : KeyStore) (now : Nat)
    (claims : Claims) (h : ks.keys = [] ∨ getActivePrivateKey ks = none) :
    generateToken cfg ks now claims = .error "JWT private key not configured" := by
  have hnone : getActivePrivateKey ks = none := by
    rcases h with h | h
    · unfold getActivePrivateKey
      cases hak : ks.activeKid with
      | none => rfl
      | some kid => simp [h, List.lookup]
    · exact h
  unfold generateToken
  rw [hnone]

/-- C7 witness: the empty key store at a concrete claims record. -/
theorem generateToken_unavailable_witness :
    generateToken ⟨none, none, none, none, none, none⟩ ⟨none, []⟩ 0 ⟨"u", "e", "o", []⟩ =
      .error "JWT private key not configured" :=
  generateToken_unavailable _ _ _ _ (Or.inl rfl)

/-- The audit update of `auditService` swallows every failure. -/
lemma updateLogoutTimestamp_ok (env : AuditEnv) (u : Option String) :
    updateLogoutTimestamp env u = .ok () := by
  unfold updateLogoutTimestamp
  cases u <;> simp

/-- C9: logout clears the session cookie and answers success under every
audit environment — connected or not, record found or not, database
throwing or not — a failing audit update never yields an error
response. -/
theorem logout_always_succeeds (env : AuditEnv) (cookieToken : Option Token) :
    logout env cookieToken =
      { clearedCookie := true, httpStatus := 200, body := "Logged out successfully" } := by
  unfold logout
  cases cookieToken <;> simp [updateLogoutTimestamp_ok]

/-- C10: the Coordinator endpoint only ever overwrites response-template
fields that were already present: for every action (known, missing or
unknown) and both handler outcomes, each of the five fields is present
in the output exactly when it was present in the incoming template. -/
theorem coordinator_frame (ks : KeyStore) (action : Option String) (exc : Bool)
    (resp : CoordResponse) :
    ((handleCoordinatorRequest ks action exc resp).2.jwks.isSome = resp.jwks.isSome) ∧
    ((handleCoordinatorRequest ks action exc resp).2.keys.isSome = resp.keys.isSome) ∧
    ((handleCoordinatorRequest ks action exc resp).2.message.isSome = resp.message.isSome) ∧
    ((handleCoordinatorRequest ks action exc resp).2.status.isSome = resp.status.isSome) ∧
    ((handleCoordinatorRequest ks action exc resp).2.error.isSome = resp.error.isSome) := by
  unfold handleCoordinatorRequest handleGetJwks handlePerformLogout
  cases action with
  | none => simp
  | some a =>
      by_cases h1 : a = ""
      · simp [h1]
      · by_cases h2 : a = "get-jwks"
        · cases exc <;> simp [h1, h2]
        · by_cases h3 : a = "perform-logout"
          · cases exc <;> simp [h1, h2, h3]
          · simp [h1, h2, h3]

/-! ### Lexicographic-last selection (keyManager.initialize) -/

lemma sorted_getLast_max {l : List String} (h : l.Sorted (· ≤ ·)) (hne : l ≠ []) :
    ∃ m, l.getLast? = some m ∧ m ∈ l ∧ ∀ x ∈ l, x ≤ m := by
  induction l with
  | nil => exact absurd rfl hne
  | cons a rest ih =>
      rcases List.sorted_cons.mp h with ⟨ha, hrest⟩
      cases rest with
      | nil => exact ⟨a, rfl, by simp, by simp⟩
      | cons b rest' =>
          obtain ⟨m, hm1, hm2, hm3⟩ := ih hrest (by simp)
          refine ⟨m, ?_, List.mem_cons_of_mem _ hm2, ?_⟩
          · rw [List.getLast?_cons_cons, hm1]
          · intro x hx
            rcases List.mem_cons.mp hx with hx | hx
            · exact hx ▸ ha m hm2
            · exact hm3 x hx

lemma autoSelectKid_max (keys : List (String × KeyPair)) (hne : keys ≠ []) :
    ∃ m, autoSelectKid keys = some m ∧ m ∈ keys.map Prod.fst ∧
      ∀ x ∈ keys.map Prod.fst, x ≤ m := by
  have hlen : 0 < keys.length := List.length_pos.mpr hne
  have hperm : List.Perm ((keys.map Prod.fst).insertionSort (fun a b => a ≤ b)) (keys.map Prod.fst) :=
    List.perm_insertionSort _ _
  have hsorted : List.Sorted (· ≤ ·) ((keys.map Prod.fst).insertionSort (fun a b => a ≤ b)) :=
    List.sorted_insertionSort _ _
  have hsne : (keys.map Prod.fst).insertionSort (fun a b => a ≤ b) ≠ [] := by
    intro hcon
    have hlen2 := hperm.length_eq
    rw [hcon] at hlen2
    simp at hlen2
    omega
  obtain ⟨m, hm1, hm2, hm3⟩ := sorted_getLast_max hsorted hsne
  refine ⟨m, ?_, hperm.mem_iff.mp hm2, ?_⟩
  · unfold autoSelectKid
    rw [if_pos hlen, List.head?_reverse, hm1]
  · intro x hx
    exact hm3 x (hperm.mem_iff.mpr hx)

/-- C8: after loading a non-empty key set, the active kid is the
configured `JWT_ACTIVE_KID` whenever it names a loaded key; otherwise
the lexicographically last loaded kid is selected. -/
theorem resolveActiveKid_correct (envKid : Option String)
    (keys : List (String × KeyPair)) (hnil : "" ∉ keys.map Prod.fst) :
    (∀ k, envKid = some k → (keys.lookup k).isSome →
        resolveActiveKid envKid keys = some k) ∧
    ((∀ k, envKid = some k → (keys.lookup k).isSome = false) → keys ≠ [] →
        ∃ m, resolveActiveKid envKid keys = some m ∧ m ∈ keys.map Prod.fst ∧
          ∀ x ∈ keys.map Prod.fst, x ≤ m) := by
  constructor
  · intro k hk hsome
    subst hk
    have hkne : k ≠ "" := by
      intro hcon
      exact hnil (hcon ▸ mem_of_lookup_isSome hsome)
    simp [resolveActiveKid, hkne, hsome]
  · intro hmiss hne
    obtain ⟨m, hm1, hm2, hm3⟩ := autoSelectKid_max keys hne
    refine ⟨m, ?_, hm2, hm3⟩
    cases hek : envKid with
    | none => exact hm1
    | some k =>
        subst hek
        have hfalse : (keys.lookup k).isSome = false := hmiss k rfl
        simp [resolveActiveKid, hfalse]
        exact hm1

/-- C8 witness: two loaded keys; configuring A picks A, while no
configuration picks the lexicographically last kid. -/
theorem resolveActiveKid_correct_witness :
    resolveActiveKid (some "A")
        [("A", ⟨.rsaPriv 1, .rsaPub 1⟩), ("B", ⟨.rsaPriv 2, .rsaPub 2⟩)] = some "A" ∧
    ∃ m, resolveActiveKid none
        [("A", ⟨.rsaPriv 1, .rsaPub 1⟩), ("B", ⟨.rsaPriv 2, .rsaPub 2⟩)] = some m ∧
      m ∈ (([("A", (⟨.rsaPriv 1, .rsaPub 1⟩ : KeyPair)), ("B", ⟨.rsaPriv 2, .rsaPub 2⟩)]).map Prod.fst) ∧
      ∀ x ∈ (([("A", (⟨.rsaPriv 1, .rsaPub 1⟩ : KeyPair)), ("B", ⟨.rsaPriv 2, .rsaPub 2⟩)]).map Prod.fst), x ≤ m := by
  constructor
  · exact (resolveActiveKid_correct (some "A") _ (by decide)).1 "A" rfl (by decide)
  · exact (resolveActiveKid_correct none _ (by decide)).2 (by simp) (by decide)

/-! ### Purge and removal (keyManager.removeKey, purgeExpiredKeys) -/

lemma removeKey_activeKid (ks : KeyStore) (kid : String) :
    (removeKey ks kid).activeKid = ks.activeKid := by
  unfold removeKey
  split
  · rfl
  · split <;> rfl

lemma foldl_removeKey_activeKid (l : List String) (ks : KeyStore) :
    (l.foldl removeKey ks).activeKid = ks.activeKid := by
  induction l generalizing ks with
  | nil => rfl
  | cons kid rest ih => rw [List.foldl_cons, ih, removeKey_activeKid]

lemma removeKey_lookup_other (ks : KeyStore) (kid a : String) (h : a ≠ kid) :
    (removeKey ks kid).keys.lookup a = ks.keys.lookup a := by
  unfold removeKey
  split
  · rfl
  · split
    · rfl
    · exact lookup_filter_ne _ _ _ h

lemma foldl_removeKey_lookup (l : List String) (ks : KeyStore) (a : String)
    (hl : ∀ kid ∈ l, a ≠ kid) :
    (l.foldl removeKey ks).keys.lookup a = ks.keys.lookup a := by
  induction l generalizing ks with
  | nil => rfl
  | cons kid rest ih =>
      rw [List.foldl_cons, ih _ (fun k hk => hl k (List.mem_cons_of_mem _ hk)),
        removeKey_lookup_other _ _ _ (hl kid (List.mem_cons_self _ _))]

lemma foldl_removeKey_keys (l : List String) (ks : KeyStore)
    (hl : ∀ kid ∈ l, kid ≠ "" ∧ ks.activeKid ≠ some kid) :
    (l.foldl removeKey ks).keys = ks.keys.filter (fun p => p.1 ∉ l) := by
  induction l generalizing ks with
  | nil => simp
  | cons kid rest ih =>
      obtain ⟨hkid, hact⟩ := hl kid (List.mem_cons_self _ _)
      have hrest : ∀ k ∈ rest, k ≠ "" ∧ (removeKey ks kid).activeKid ≠ some k := by
        intro k hk
        rw [removeKey_activeKid]
        exact hl k (List.mem_cons_of_mem _ hk)
      rw [List.foldl_cons, ih _ hrest]
      by_cases habs : ks.keys.lookup kid = none
      · have hunch : removeKey ks kid = ks := by
          unfold removeKey
          rw [if_pos (Or.inr (by simp [habs]))]
        rw [hunch]
        apply List.filter_congr
        intro p hp
        have hpk : p.1 ≠ kid := by
          intro hcon
          rw [lookup_eq_none_iff] at habs
          exact habs (hcon ▸ List.mem_map_of_mem Prod.fst hp)
        simp [List.mem_cons, hpk]
      · have hdel : removeKey ks kid = { ks with keys := ks.keys.filter (fun p => p.1 ≠ kid) } := by
          unfold removeKey
          rw [if_neg (by simp [habs, hkid]), if_neg (by simpa using hact)]
        rw [hdel]
        rw [List.filter_filter]
        apply List.filter_congr
        intro p hp
        simp [List.mem_cons, Bool.and_comm]
  -- end

/-- C1: the active signing key can never be deleted while active:
`removeKey` is a no-op on the active kid and on an absent kid; explicit
purge skips the active kid even when requested; auto purge (no explicit
list) keeps the active kid and removes exactly the non-active kids. -/
theorem activeKey_never_removed (st : ServiceState) :
    (∀ kid, st.ks.activeKid = some kid ∨ st.ks.keys.lookup kid = none →
        removeKey st.ks kid = st.ks) ∧
    (∀ ids a, st.ks.activeKid = some a →
        (purgeExpiredKeys st (some ids)).1.ks.keys.lookup a = st.ks.keys.lookup a ∧
        (purgeExpiredKeys st (some ids)).1.ks.activeKid = some a ∧
        a ∉ (purgeExpiredKeys st (some ids)).2.purged) ∧
    ("" ∉ getAllKids st.ks →
        (purgeExpiredKeys st none).1.ks.keys =
          st.ks.keys.filter (fun p => st.ks.activeKid = some p.1)) ∧
    (∀ a, st.ks.activeKid = some a →
        (purgeExpiredKeys st none).1.ks.keys.lookup a = st.ks.keys.lookup a ∧
        a ∉ (purgeExpiredKeys st none).2.purged) := by
  refine ⟨?_, ?_, ?_, ?_⟩
  · intro kid h
    rcases h with h | h
    · unfold removeKey
      by_cases h1 : kid = "" ∨ (st.ks.keys.lookup kid).isNone
      · rw [if_pos h1]
      · rw [if_neg h1, if_pos h]
    · unfold removeKey
      rw [if_pos (Or.inr (by simp [h]))]
  · intro ids a hact
    have hnotin : a ∉ ids.filter (fun kid => getActiveKid st.ks ≠ some kid) := by
      intro hmem
      have := (List.mem_filter.mp hmem).2
      simp [getActiveKid, hact] at this
    unfold purgeExpiredKeys
    by_cases hemp : (ids.filter (fun kid => getActiveKid st.ks ≠ some kid)).length = 0
    · simp only [hemp, if_pos rfl]
      exact ⟨rfl, hact, by simp⟩
    · simp only [hemp, if_false, refreshJWKS]
      refine ⟨?_, ?_, hnotin⟩
      · apply foldl_removeKey_lookup
        intro kid hkid hcon
        exact hnotin (hcon ▸ hkid)
      · rw [foldl_removeKey_activeKid]
        exact hact
  · intro hnil
    unfold purgeExpiredKeys
    by_cases hemp : ((getAllKids st.ks).filter (fun kid => getActiveKid st.ks ≠ some kid)).length = 0
    · simp only [hemp, if_pos rfl]
      have hall : ∀ kid ∈ getAllKids st.ks, st.ks.activeKid = some kid := by
        intro kid hkid
        by_contra hcon
        have : kid ∈ (getAllKids st.ks).filter (fun kid => getActiveKid st.ks ≠ some kid) :=
          List.mem_filter.mpr ⟨hkid, by simp [getActiveKid, hcon]⟩
        rw [List.length_eq_zero.mp hemp] at this
        simp at this
      symm
      apply List.filter_eq_self.mpr
      intro p hp
      simp [hall p.1 (List.mem_map_of_mem Prod.fst hp)]
    · simp only [hemp, if_false, refreshJWKS]
      rw [foldl_removeKey_keys]
      · apply List.filter_congr
        intro p hp
        have hpmem : p.1 ∈ getAllKids st.ks := List.mem_map_of_mem Prod.fst hp
        by_cases hpa : st.ks.activeKid = some p.1
        · simp [List.mem_filter, getActiveKid, hpa]
        · simp [List.mem_filter, getActiveKid, hpa, hpmem]
      · intro kid hkid
        rcases List.mem_filter.mp hkid with ⟨hmem, hcond⟩
        refine ⟨fun hcon => hnil (hcon ▸ hmem), ?_⟩
        simpa [getActiveKid] using hcond
  · intro a hact
    have hnotin : a ∉ (getAllKids st.ks).filter (fun kid => getActiveKid st.ks ≠ some kid) := by
      intro hmem
      have := (List.mem_filter.mp hmem).2
      simp [getActiveKid, hact] at this
    unfold purgeExpiredKeys
    by_cases hemp : ((getAllKids st.ks).filter (fun kid => getActiveKid st.ks ≠ some kid)).length = 0
    · simp only [hemp, if_pos rfl]
      exact ⟨rfl, by simp⟩
    · simp only [hemp, if_false, refreshJWKS]
      refine ⟨?_, hnotin⟩
      apply foldl_removeKey_lookup
      intro kid hkid hcon
      exact hnotin (hcon ▸ hkid)

/-- C1 witness: store with active key A and retired key B; explicit
purge requesting A and B keeps A, auto purge leaves exactly A. -/
theorem activeKey_never_removed_witness :
    removeKey ⟨some "A", [("A", ⟨.rsaPriv 1, .rsaPub 1⟩), ("B", ⟨.rsaPriv 2, .rsaPub 2⟩)]⟩ "A" =
      ⟨some "A", [("A", ⟨.rsaPriv 1, .rsaPub 1⟩), ("B", ⟨.rsaPriv 2, .rsaPub 2⟩)]⟩ ∧
    (purgeExpiredKeys ⟨⟨some "A", [("A", ⟨.rsaPriv 1, .rsaPub 1⟩), ("B", ⟨.rsaPriv 2, .rsaPub 2⟩)]⟩, []⟩
        (some ["A", "B"])).1.ks.keys.lookup "A" = some ⟨.rsaPriv 1, .rsaPub 1⟩ ∧
    (purgeExpiredKeys ⟨⟨some "A", [("A", ⟨.rsaPriv 1, .rsaPub 1⟩), ("B", ⟨.rsaPriv 2, .rsaPub 2⟩)]⟩, []⟩
        none).1.ks.keys = [("A", ⟨.rsaPriv 1, .rsaPub 1⟩)] := by
  refine ⟨?_, ?_, ?_⟩
  · exact (activeKey_never_removed ⟨⟨some "A", [("A", ⟨.rsaPriv 1, .rsaPub 1⟩), ("B", ⟨.rsaPriv 2, .rsaPub 2⟩)]⟩, []⟩).1 "A" (Or.inl rfl)
  · rw [((activeKey_never_removed ⟨⟨some "A", [("A", ⟨.rsaPriv 1, .rsaPub 1⟩), ("B", ⟨.rsaPriv 2, .rsaPub 2⟩)]⟩, []⟩).2.1 ["A", "B"] "A" rfl).1]
    decide
  · rw [(activeKey_never_removed ⟨⟨some "A", [("A", ⟨.rsaPriv 1, .rsaPub 1⟩), ("B", ⟨.rsaPriv 2, .rsaPub 2⟩)]⟩, []⟩).2.2.1 (by decide)]
    decide

/-! ### Token round trip (jwtService.generateToken / validateJWT) -/

/-- C2: with a resolvable active key whose stored pair matches, a token
issued now is accepted by validation now, the verified claims equal the
issued ones, the payload preserves issuer and audience, and the expiry
is the issue time plus the configured lifetime in minutes (default 15). -/
theorem issue_verify_roundtrip (cfg : Config) (ks : KeyStore) (now : Nat)
    (claims : Claims) (kid : String) (n : Nat)
    (hkid : ks.activeKid = some kid) (hne : kid ≠ "")
    (hpair : ks.keys.lookup kid = some ⟨.rsaPriv n, .rsaPub n⟩)
    (hlife : 0 < cfg.jwtExpiryMinutes.getD 15) :
    ∃ t, generateToken cfg ks now claims = .ok t ∧
      validateJWT cfg ks now (some t) =
        .success ⟨claims.sub, claims.email, claims.organization_id, claims.roles⟩ ∧
      t.header.kid = some kid ∧
      t.payload.sub = claims.sub ∧ t.payload.email = claims.email ∧
      t.payload.organization_id = claims.organization_id ∧
      t.payload.roles = claims.roles ∧
      t.payload.iss = cfgIssuer cfg ∧ t.payload.aud = cfgAudience cfg ∧
      t.payload.iat = now ∧
      t.payload.exp = now + cfg.jwtExpiryMinutes.getD 15 * 60 := by
  have hpriv : getActivePrivateKey ks = some (.rsaPriv n) := by
    unfold getActivePrivateKey
    rw [hkid]
    simp [hne, hpair]
  have hact : getActiveKid ks = some kid := hkid
  have hgen : generateToken cfg ks now claims =
      .ok { header := { alg := "RS256", kid := some kid },
            payload := { sub := claims.sub, email := claims.email,
                         organization_id := claims.organization_id,
                         roles := claims.roles, iat := now,
                         exp := now + cfg.jwtExpiryMinutes.getD 15 * 60,
                         iss := cfgIssuer cfg, aud := cfgAudience cfg },
            sig := n } := by
    unfold generateToken
    rw [hpriv]
    simp [KeyMaterial.truthy, hact, hne, jwtSign]
  refine ⟨_, hgen, ?_, rfl, rfl, rfl, rfl, rfl, rfl, rfl, rfl, rfl⟩
  have hpub : getPublicKey ks kid = some (.rsaPub n) := by
    unfold getPublicKey
    simp [hne, hpair]
  have hnotexp : ¬ (now + cfg.jwtExpiryMinutes.getD 15 * 60 ≤ now) := by omega
  unfold validateJWT
  simp only [hpub]
  unfold jwtVerify
  simp [hnotexp, userOfPayload]

/-- C2 witness: one matching key pair, default configuration, concrete
claims at time 0. -/
theorem issue_verify_roundtrip_witness :
    ∃ t, generateToken ⟨none, none, none, none, none, none⟩
        ⟨some "k1", [("k1", ⟨.rsaPriv 7, .rsaPub 7⟩)]⟩ 0 ⟨"u1", "u1@x", "org1", ["admin"]⟩ = .ok t ∧
      validateJWT ⟨none, none, none, none, none, none⟩
        ⟨some "k1", [("k1", ⟨.rsaPriv 7, .rsaPub 7⟩)]⟩ 0 (some t) =
        .success ⟨"u1", "u1@x", "org1", ["admin"]⟩ ∧
      t.header.kid = some "k1" ∧
      t.payload.sub = "u1" ∧ t.payload.email = "u1@x" ∧
      t.payload.organization_id = "org1" ∧
      t.payload.roles = ["admin"] ∧
      t.payload.iss = cfgIssuer ⟨none, none, none, none, none, none⟩ ∧
      t.payload.aud = cfgAudience ⟨none, none, none, none, none, none⟩ ∧
      t.payload.iat = 0 ∧
      t.payload.exp = 0 + (Option.getD (none : Option Nat) 15) * 60 :=
  issue_verify_roundtrip ⟨none, none, none, none, none, none⟩
    ⟨some "k1", [("k1", ⟨.rsaPriv 7, .rsaPub 7⟩)]⟩ 0 ⟨"u1", "u1@x", "org1", ["admin"]⟩
    "k1" 7 rfl (by decide) (by decide) (by decide)

/-! ### Key selection in validateJWT -/

lemma tryAllKeys_last_error (tok : Token) (issuer audience : String) (now : Nat) :
    ∀ (l : List (String × KeyMaterial)) (p : String × KeyMaterial)
      (eLast : JwtError) (acc : Option JwtError),
      (∀ q ∈ l, ∃ er, jwtVerify tok q.2 issuer audience now = .error er) →
      jwtVerify tok p.2 issuer audience now = .error eLast →
      tryAllKeys tok issuer audience now (l ++ [p]) acc = respOfJwtError eLast := by
  intro l
  induction l with
  | nil =>
      intro p eLast acc _ hp
      simp [tryAllKeys, hp]
  | cons q l' ih =>
      intro p eLast acc hfail hp
      obtain ⟨er, her⟩ := hfail q (List.mem_cons_self _ _)
      rw [List.cons_append]
      obtain ⟨qk, qv⟩ := q
      unfold tryAllKeys
      rw [her]
      exact ih p eLast (some er) (fun r hr => hfail r (List.mem_cons_of_mem _ hr)) hp

lemma tryAllKeys_first_success (tok : Token) (issuer audience : String) (now : Nat) :
    ∀ (l₁ : List (String × KeyMaterial)) (p : String × KeyMaterial)
      (l₂ : List (String × KeyMaterial)) (d : Payload) (acc : Option JwtError),
      (∀ q ∈ l₁, ∃ er, jwtVerify tok q.2 issuer audience now = .error er) →
      jwtVerify tok p.2 issuer audience now = .ok d →
      tryAllKeys tok issuer audience now (l₁ ++ p :: l₂) acc =
        .success (userOfPayload d) := by
  intro l₁
  induction l₁ with
  | nil =>
      intro p l₂ d acc _ hp
      obtain ⟨pk, pv⟩ := p
      simp [tryAllKeys, hp]
  | cons q l' ih =>
      intro p l₂ d acc hfail hp
      obtain ⟨er, her⟩ := hfail q (List.mem_cons_self _ _)
      rw [List.cons_append]
      obtain ⟨qk, qv⟩ := q
      unfold tryAllKeys
      rw [her]
      exact ih p l₂ d (some er) (fun r hr => hfail r (List.mem_cons_of_mem _ hr)) hp

/-- C3: verification strategy of `validateJWT`. A token whose header kid
resolves in the store is verified strictly with that key — the typed
verification outcome is final, no fallback. Otherwise (no kid, or no
match) all public keys are tried in store order: an empty key set is a
500 misconfiguration, the first succeeding key returns its claims, and
when all keys fail the error of the last key tried is surfaced. -/
theorem validateJWT_key_selection (cfg : Config) (ks : KeyStore) (now : Nat)
    (tok : Token) :
    (∀ kid key, tok.header.kid = some kid → getPublicKey ks kid = some key →
        validateJWT cfg ks now (some tok) =
          (match jwtVerify tok key (cfgIssuer cfg) (cfgAudience cfg) now with
           | .ok d => .success (userOfPayload d)
           | .error e => respOfJwtError e)) ∧
    ((∀ kid, tok.header.kid = some kid → getPublicKey ks kid = none) →
      ks.keys = [] →
        validateJWT cfg ks now (some tok) =
          .failure 500 "Authentication service misconfigured") ∧
    ((∀ kid, tok.header.kid = some kid → getPublicKey ks kid = none) →
      ∀ l₁ p l₂ d, getAllPublicKeys ks = l₁ ++ p :: l₂ →
        (∀ q ∈ l₁, ∃ er, jwtVerify tok q.2 (cfgIssuer cfg) (cfgAudience cfg) now = .error er) →
        jwtVerify tok p.2 (cfgIssuer cfg) (cfgAudience cfg) now = .ok d →
          validateJWT cfg ks now (some tok) = .success (userOfPayload d)) ∧
    ((∀ kid, tok.header.kid = some kid → getPublicKey ks kid = none) →
      ∀ l p e, getAllPublicKeys ks = l ++ [p] →
        (∀ q ∈ l, ∃ er, jwtVerify tok q.2 (cfgIssuer cfg) (cfgAudience cfg) now = .error er) →
        jwtVerify tok p.2 (cfgIssuer cfg) (cfgAudience cfg) now = .error e →
          validateJWT cfg ks now (some tok) = respOfJwtError e) := by
  have hpin_none : (∀ kid, tok.header.kid = some kid → getPublicKey ks kid = none) →
      (match tok.header.kid with
       | some kid => getPublicKey ks kid
       | none => none) = (none : Option KeyMaterial) := by
    intro h
    cases hk : tok.header.kid with
    | none => rfl
    | some kid => exact h kid hk
  refine ⟨?_, ?_, ?_, ?_⟩
  · intro kid key hkid hkey
    simp only [validateJWT, hkid, hkey]
  · intro hnp hempty
    simp only [validateJWT, hpin_none hnp]
    simp [getAllPublicKeys, hempty]
  · intro hnp l₁ p l₂ d hdec hfail hp
    simp only [validateJWT, hpin_none hnp]
    rw [hdec, if_neg (by simp)]
    exact tryAllKeys_first_success tok _ _ now l₁ p l₂ d none hfail hp
  · intro hnp l p e hdec hfail hp
    simp only [validateJWT, hpin_none hnp]
    rw [hdec, if_neg (by simp)]
    exact tryAllKeys_last_error tok _ _ now l p e none hfail hp

/-- C3 witness: a pinned token verified with its single key, and a
kid-less token failing against both keys of a two-key store, surfacing
the last signature error. -/
theorem validateJWT_key_selection_witness :
    validateJWT ⟨none, none, none, none, none, none⟩
        ⟨some "A", [("A", ⟨.rsaPriv 1, .rsaPub 1⟩), ("B", ⟨.rsaPriv 2, .rsaPub 2⟩)]⟩ 0
        (some ⟨⟨"RS256", some "A"⟩, ⟨"u", "e", "o", [], 0, 900, "auth-microservice", "educore-ai"⟩, 1⟩) =
      .success ⟨"u", "e", "o", []⟩ ∧
    validateJWT ⟨none, none, none, none, none, none⟩
        ⟨some "A", [("A", ⟨.rsaPriv 1, .rsaPub 1⟩), ("B", ⟨.rsaPriv 2, .rsaPub 2⟩)]⟩ 0
        (some ⟨⟨"RS256", none⟩, ⟨"u", "e", "o", [], 0, 900, "auth-microservice", "educore-ai"⟩, 9⟩) =
      .failure 401 "Invalid token" := by
  constructor
  · exact ((validateJWT_key_selection ⟨none, none, none, none, none, none⟩
      ⟨some "A", [("A", ⟨.rsaPriv 1, .rsaPub 1⟩), ("B", ⟨.rsaPriv 2, .rsaPub 2⟩)]⟩ 0
      ⟨⟨"RS256", some "A"⟩, ⟨"u", "e", "o", [], 0, 900, "auth-microservice", "educore-ai"⟩, 1⟩).1
      "A" (.rsaPub 1) rfl (by decide)).trans (by decide)
  · exact ((validateJWT_key_selection ⟨none, none, none, none, none, none⟩
      ⟨some "A", [("A", ⟨.rsaPriv 1, .rsaPub 1⟩), ("B", ⟨.rsaPriv 2, .rsaPub 2⟩)]⟩ 0
      ⟨⟨"RS256", none⟩, ⟨"u", "e", "o", [], 0, 900, "auth-microservice", "educore-ai"⟩, 9⟩).2.2.2
      (fun kid h => Option.noConfusion h)
      [("A", .rsaPub 1)] ("B", .rsaPub 2) .invalidSignature rfl
      (by
        intro q hq
        rw [List.mem_singleton] at hq
        subst hq
        exact ⟨.invalidSignature, rfl⟩)
      rfl).trans (by decide)

/-! ### Rotation (keyRotationService.rotateToNewKey) -/

lemma mem_generateJWKS (ks : KeyStore) (kid : String) (kp : KeyPair) (n e : Nat)
    (hmem : (kid, kp) ∈ ks.keys) (htr : kp.publicKey.truthy)
    (hconv : createPublicKey kp.publicKey = some (n, e)) :
    kid ∈ (generateJWKS ks).map JwksKey.kid := by
  unfold generateJWKS
  apply List.mem_map.mpr
  refine ⟨{ kty := "RSA", use := "sig", kid := kid, alg := "RS256", n := n, e := e }, ?_, rfl⟩
  apply List.mem_filterMap.mpr
  refine ⟨(kid, kp), hmem, ?_⟩
  simp [htr, hconv]

/-- C5: a rotation with structurally valid new material under id `k`
makes `k` active, leaves the previously active key `a` untouched (so
pre-rotation tokens still validate identically), refreshes the JWKS
cache to contain both kids, and returns the previous active id, the new
active id, and the total key count. -/
theorem rotate_success (cfg : Config) (month : String) (st : ServiceState)
    (k a : String) (np mp : Nat) (kp : KeyPair)
    (hk : cfg.jwtNewKid = some k) (hkne : k ≠ "")
    (hpriv : cfg.jwtPrivateKeyNew = some (.rsaPriv np))
    (hpub : cfg.jwtPublicKeyNew = some (.rsaPub mp))
    (hact : st.ks.activeKid = some a) (hane : a ≠ "") (hak : a ≠ k)
    (hold : st.ks.keys.lookup a = some kp)
    (htr : kp.publicKey.truthy)
    (qn qe : Nat) (hconv : createPublicKey kp.publicKey = some (qn, qe)) :
    ∃ st' res, rotateToNewKey cfg month st = (st', .ok res) ∧
      st'.ks.activeKid = some k ∧
      st'.ks.keys.lookup a = some kp ∧
      st'.ks.keys.lookup k = some ⟨.rsaPriv np, .rsaPub mp⟩ ∧
      k ∈ st'.jwksCache.map JwksKey.kid ∧
      a ∈ st'.jwksCache.map JwksKey.kid ∧
      res.oldActiveKid = some a ∧ res.newActiveKid = k ∧
      res.totalKeys = st'.ks.keys.length ∧
      (∀ t now2, t.header.kid = some a →
        validateJWT cfg st'.ks now2 (some t) = validateJWT cfg st.ks now2 (some t)) := by
  have hnewkid : effectiveNewKid cfg month = k := by
    simp [effectiveNewKid, hk, strOrDefault, hkne]
  have haddkey : addKey st.ks k (.rsaPriv np) (.rsaPub mp) false =
      .ok ⟨some a, objSet st.ks.keys k ⟨.rsaPriv np, .rsaPub mp⟩⟩ := by
    simp [addKey, hkne, KeyMaterial.truthy, hact]
  have hset : setActiveKid ⟨some a, objSet st.ks.keys k ⟨.rsaPriv np, .rsaPub mp⟩⟩ k =
      .ok ⟨some k, objSet st.ks.keys k ⟨.rsaPriv np, .rsaPub mp⟩⟩ := by
    unfold setActiveKid
    rw [lookup_objSet_self]
  have heq : rotateToNewKey cfg month st =
      (⟨⟨some k, objSet st.ks.keys k ⟨.rsaPriv np, .rsaPub mp⟩⟩,
        generateJWKS ⟨some k, objSet st.ks.keys k ⟨.rsaPriv np, .rsaPub mp⟩⟩⟩,
       .ok { oldActiveKid := some a, newActiveKid := k,
             totalKeys := (objSet st.ks.keys k ⟨.rsaPriv np, .rsaPub mp⟩).length }) := by
    simp only [rotateToNewKey, hnewkid, hpriv, hpub, haddkey, hset, refreshJWKS,
      getActiveKid, hact, getKeyStoreState, KeyMaterial.truthy, createPrivateKey,
      createPublicKey]
    simp
  have hlookA : (objSet st.ks.keys k ⟨.rsaPriv np, .rsaPub mp⟩).lookup a = some kp := by
    rw [lookup_objSet_ne _ _ _ _ hak]
    exact hold
  have hlookK : (objSet st.ks.keys k ⟨.rsaPriv np, .rsaPub mp⟩).lookup k =
      some ⟨.rsaPriv np, .rsaPub mp⟩ := lookup_objSet_self _ _ _
  refine ⟨_, _, heq, rfl, hlookA, hlookK, ?_, ?_, rfl, rfl, rfl, ?_⟩
  · exact mem_generateJWKS _ k ⟨.rsaPriv np, .rsaPub mp⟩ mp 65537
      (lookup_some_mem hlookK) (by rfl) (by rfl)
  · exact mem_generateJWKS _ a kp qn qe (lookup_some_mem hlookA) htr hconv
  · intro t now2 ht
    have hp1 : getPublicKey ⟨some k, objSet st.ks.keys k ⟨.rsaPriv np, .rsaPub mp⟩⟩ a =
        some kp.publicKey := by
      unfold getPublicKey
      simp only [hane, if_neg]
      rw [hlookA]
      simp [hane]
    have hp2 : getPublicKey st.ks a = some kp.publicKey := by
      unfold getPublicKey
      rw [hold]
      simp [hane]
    simp only [validateJWT, ht, hp1, hp2]

/-- C5 witness: store with active key A, rotating to key C. -/
theorem rotate_success_witness :
    ∃ st' res, rotateToNewKey
        ⟨none, none, none, some (.rsaPriv 3), some (.rsaPub 3), some "C"⟩ "2025-10"
        ⟨⟨some "A", [("A", ⟨.rsaPriv 1, .rsaPub 1⟩)]⟩, []⟩ = (st', .ok res) ∧
      st'.ks.activeKid = some "C" ∧
      st'.ks.keys.lookup "A" = some ⟨.rsaPriv 1, .rsaPub 1⟩ ∧
      st'.ks.keys.lookup "C" = some ⟨.rsaPriv 3, .rsaPub 3⟩ ∧
      "C" ∈ st'.jwksCache.map JwksKey.kid ∧
      "A" ∈ st'.jwksCache.map JwksKey.kid ∧
      res.oldActiveKid = some "A" ∧ res.newActiveKid = "C" ∧
      res.totalKeys = st'.ks.keys.length ∧
      (∀ t now2, t.header.kid = some "A" →
        validateJWT ⟨none, none, none, some (.rsaPriv 3), some (.rsaPub 3), some "C"⟩
            st'.ks now2 (some t) =
          validateJWT ⟨none, none, none, some (.rsaPriv 3), some (.rsaPub 3), some "C"⟩
            ⟨some "A", [("A", ⟨.rsaPriv 1, .rsaPub 1⟩)]⟩ now2 (some t)) :=
  rotate_success ⟨none, none, none, some (.rsaPriv 3), some (.rsaPub 3), some "C"⟩
    "2025-10" ⟨⟨some "A", [("A", ⟨.rsaPriv 1, .rsaPub 1⟩)]⟩, []⟩
    "C" "A" 3 3 ⟨.rsaPriv 1, .rsaPub 1⟩ rfl (by decide) rfl rfl rfl (by decide)
    (by decide) (by decide) (by decide) 1 65537 (by decide)

/-- C6: a rotation whose new key material is absent, falsy or fails
crypto parsing reports an error and leaves the module state — key store
included — completely unchanged. -/
theorem rotate_invalid_no_mutation (cfg : Config) (month : String)
    (st : ServiceState)
    (h : cfg.jwtPrivateKeyNew = none ∨ cfg.jwtPublicKeyNew = none ∨
         (∃ p, cfg.jwtPrivateKeyNew = some p ∧ (¬ p.truthy ∨ createPrivateKey p = none)) ∨
         (∃ q, cfg.jwtPublicKeyNew = some q ∧ (¬ q.truthy ∨ createPublicKey q = none))) :
    (rotateToNewKey cfg month st).1 = st ∧
    ∃ msg, (rotateToNewKey cfg month st).2 = .error msg := by
  cases hpv : cfg.jwtPrivateKeyNew with
  | none =>
      exact ⟨by simp [rotateToNewKey, hpv],
        "JWT_PRIVATE_KEY_NEW and JWT_PUBLIC_KEY_NEW must be set for key rotation",
        by simp [rotateToNewKey, hpv]⟩
  | some p =>
      cases hpb : cfg.jwtPublicKeyNew with
      | none =>
          exact ⟨by simp [rotateToNewKey, hpv, hpb],
            "JWT_PRIVATE_KEY_NEW and JWT_PUBLIC_KEY_NEW must be set for key rotation",
            by simp [rotateToNewKey, hpv, hpb]⟩
      | some q =>
          have hinv : (¬ p.truthy ∨ createPrivateKey p = none) ∨
              (¬ q.truthy ∨ createPublicKey q = none) := by
            rcases h with h | h | ⟨p', hp', hcase⟩ | ⟨q', hq', hcase⟩
            · rw [hpv] at h
              exact absurd h (by simp)
            · rw [hpb] at h
              exact absurd h (by simp)
            · rw [hpv] at hp'
              exact Or.inl (Option.some_inj.mp hp' ▸ hcase)
            · rw [hpb] at hq'
              exact Or.inr (Option.some_inj.mp hq' ▸ hcase)
          by_cases htp : p.truthy
          · by_cases htq : q.truthy
            · have hparse : createPrivateKey p = none ∨ createPublicKey q = none := by
                rcases hinv with (h | h) | (h | h)
                · exact absurd htp h
                · exact Or.inl h
                · exact absurd htq h
                · exact Or.inr h
              have hstep : rotateToNewKey cfg month st = (st, .error "Invalid key format") := by
                simp only [rotateToNewKey, hpv, hpb]
                rw [if_neg (by simp [htp, htq]), if_pos (by simpa using hparse)]
              exact ⟨by rw [hstep], "Invalid key format", by rw [hstep]⟩
            · exact ⟨by simp [rotateToNewKey, hpv, hpb, htq],
                "JWT_PRIVATE_KEY_NEW and JWT_PUBLIC_KEY_NEW must be set for key rotation",
                by simp [rotateToNewKey, hpv, hpb, htq]⟩
          · exact ⟨by simp [rotateToNewKey, hpv, hpb, htp],
              "JWT_PRIVATE_KEY_NEW and JWT_PUBLIC_KEY_NEW must be set for key rotation",
              by simp [rotateToNewKey, hpv, hpb, htp]⟩

/-- C6 witness: malformed private key material, state untouched. -/
theorem rotate_invalid_no_mutation_witness :
    (rotateToNewKey ⟨none, none, none, some (.malformed "garbage"), some (.rsaPub 3), some "C"⟩
        "2025-10" ⟨⟨some "A", [("A", ⟨.rsaPriv 1, .rsaPub 1⟩)]⟩, []⟩).1 =
      ⟨⟨some "A", [("A", ⟨.rsaPriv 1, .rsaPub 1⟩)]⟩, []⟩ ∧
    ∃ msg, (rotateToNewKey ⟨none, none, none, some (.malformed "garbage"), some (.rsaPub 3), some "C"⟩
        "2025-10" ⟨⟨some "A", [("A", ⟨.rsaPriv 1, .rsaPub 1⟩)]⟩, []⟩).2 = .error msg :=
  rotate_invalid_no_mutation _ _ _
    (Or.inr (Or.inr (Or.inl ⟨.malformed "garbage", rfl, Or.inr rfl⟩)))

/-! ### OAuth-session cookie clearing in handleCallback -/

/-- C4 counterexample: on the provider-reported-error termination path
(a `google` callback carrying `error=access_denied` with state and
verifier cookies still stored), `handleCallback` returns without
clearing the transient OAuth-session cookies. -/
theorem handleCallback_provider_error_keeps_cookies :
    (handleCallback ⟨none, none, none, none, none, none⟩ ⟨none, []⟩ 0
        "http://localhost:5173" "google" (some "code") (some "s") (some "access_denied")
        (some "s") ⟨true, .identity (some "e@x"), .result none⟩).clearedState = false ∧
    (handleCallback ⟨none, none, none, none, none, none⟩ ⟨none, []⟩ 0
        "http://localhost:5173" "google" (some "code") (some "s") (some "access_denied")
        (some "s") ⟨true, .identity (some "e@x"), .result none⟩).clearedVerifier = false := by
  constructor <;> rfl

lemma callbackIdentityStage_clears (cfg : Config) (ks : KeyStore) (now : Nat)
    (frontendUrl provider : String) (email : Option String) (dir : DirectoryOutcome) :
    (callbackIdentityStage cfg ks now frontendUrl provider email dir).clearedState = true ∧
    ((callbackIdentityStage cfg ks now frontendUrl provider email dir).clearedVerifier = true ↔
      ((callbackIdentityStage cfg ks now frontendUrl provider email dir).accessToken = none ∨
        (provider ≠ "github" ∧ provider ≠ "linkedin"))) := by
  unfold callbackIdentityStage callbackCatchResponse
  by_cases hem : truthyOptStr email
  · simp only [hem]
    cases dir with
    | throws => simp
    | result user =>
        cases user with
        | none => simp
        | some u =>
            by_cases hu : u.user_id = ""
            · simp [hu]
            · simp only [hu]
              cases hgen : generateToken cfg ks now
                  { sub := u.user_id, email := email.getD "",
                    organization_id := u.organization_id, roles := u.roles } with
              | error e => simp [hgen]
              | ok tok => simp [hgen]
  · simp [hem]

/-- C4 amended: the transient OAuth cookies are cleared on the
state-cookie-missing, state-mismatch, token-exchange-failure,
missing-email, not-provisioned, thrown-exception and success paths, but
NOT on the provider-reported-error and missing-parameter paths (which
return before session-cookie handling) nor on the unconfigured-Google-
client path; on success the code-verifier cookie is cleared only for
providers other than GitHub and LinkedIn. -/
theorem handleCallback_cookie_clearing (cfg : Config) (ks : KeyStore) (now : Nat)
    (frontendUrl provider : String) (code state oauthError storedState : Option String)
    (env : CallbackEnv) :
    ((handleCallback cfg ks now frontendUrl provider code state oauthError storedState env).clearedState = false ↔
      (truthyOptStr oauthError = true ∨
       (truthyOptStr oauthError = false ∧
         (truthyOptStr code = false ∨ truthyOptStr state = false)) ∨
       (truthyOptStr oauthError = false ∧ truthyOptStr code = true ∧
         truthyOptStr state = true ∧ truthyOptStr storedState = true ∧
         state = storedState ∧ provider ≠ "github" ∧ provider ≠ "linkedin" ∧
         env.googleClientConfigured = false))) ∧
    ((handleCallback cfg ks now frontendUrl provider code state oauthError storedState env).clearedVerifier = true ↔
      ((handleCallback cfg ks now frontendUrl provider code state oauthError storedState env).clearedState = true ∧
       ((handleCallback cfg ks now frontendUrl provider code state oauthError storedState env).accessToken = none ∨
         (provider ≠ "github" ∧ provider ≠ "linkedin")))) := by
  unfold handleCallback
  by_cases h1 : truthyOptStr oauthError
  · simp [h1]
  · simp only [h1, Bool.false_eq_true, if_false, eq_self_iff_true]
    by_cases h2 : truthyOptStr code
    · by_cases h3 : truthyOptStr state
      · simp only [h2, h3, not_true, if_neg, Bool.not_eq_true]
        rw [if_neg (by simp [h2, h3])]
        by_cases h4 : truthyOptStr storedState
        · simp only [h4]
          rw [if_neg (by simp)]
          by_cases h5 : state = storedState
          · rw [if_neg (by simp [h5])]
            by_cases h6 : provider = "github" ∨ provider = "linkedin"
            · rw [if_pos h6]
              cases env.exchange with
              | throws =>
                  refine ⟨?_, by simp [callbackCatchResponse]⟩
                  simp [callbackCatchResponse]
                  rcases h6 with h6 | h6 <;> simp [h6]
              | noAccessToken =>
                  refine ⟨?_, by simp⟩
                  simp
                  rcases h6 with h6 | h6 <;> simp [h6]
              | identity email =>
                  obtain ⟨hc1, hc2⟩ := callbackIdentityStage_clears cfg ks now
                    frontendUrl provider email env.directory
                  refine ⟨?_, by simpa [hc1] using hc2⟩
                  simp [hc1]
                  rcases h6 with h6 | h6 <;> simp [h6]
            · rw [if_neg h6]
              push_neg at h6
              by_cases h7 : env.googleClientConfigured
              · rw [if_neg (by simp [h7])]
                cases env.exchange with
                | throws =>
                    refine ⟨?_, by simp [callbackCatchResponse]⟩
                    simp [callbackCatchResponse, h7]
                | noAccessToken =>
                    refine ⟨?_, by simp [callbackCatchResponse]⟩
                    simp [callbackCatchResponse, h7]
                | identity email =>
                    obtain ⟨hc1, hc2⟩ := callbackIdentityStage_clears cfg ks now
                      frontendUrl provider email env.directory
                    refine ⟨?_, by simpa [hc1] using hc2⟩
                    simp [hc1, h7]
              · rw [if_pos (by simp [h7])]
                simp [h1, h2, h3, h4, h5, h6, h7]
          · rw [if_pos (by simp [h5])]
            simp [h1, h2, h3, h4, h5]
        · rw [if_pos (by simp [h4])]
          simp [h1, h2, h3, h4]
      · rw [if_pos (by simp [h3])]
        simp [h1, h2, h3]
    · rw [if_pos (by simp [h2])]
      simp [h1, h2]
